import Mathlib

/-!
Shallow embedding of `src/py_google_fit/GoogleFit.py` (timvancann/py-google-fit).

The Python module defines an enum `GFitDataType` and a class `GoogleFit` whose
data methods build a time-bounded aggregate request, send it through an
authorized service handle, and reduce the nested JSON response to a single
number or the sentinel string `'no data found'`.

Modelling choices:
* Python's dynamically typed values (the reducer returns either a number or a
  string) are embedded as the inductive `PyVal`; Python numbers are embedded
  exactly, `int` as `Int` and `float` as `ℚ`.
* JSON responses are embedded as the inductive `JVal`; subscripting a dict or
  list (`resp['bucket']`, `bucket[0]`) yields `Option JVal`, with `none`
  standing for a raised `KeyError`/`IndexError`/`TypeError`.
* A function that can raise returns `Option _`; `none` is an uncaught
  exception propagating to the caller.
* A naive local `datetime` is embedded as `PyDatetime`: a day index plus the
  time of day in seconds.  `datetime.now()` becomes an explicit `now`
  parameter, the process's local-timezone offset an explicit `tz` parameter,
  and the authorized network service (`self._service ... .execute()`) an
  explicit function `svc` from request bodies to responses.
-/

/-- Dynamically typed Python value as produced by the reducer: a string, an
`int`, or a `float` (embedded exactly as a rational). -/
inductive PyVal where
  | vStr (s : String)
  | vInt (n : Int)
  | vFloat (q : ℚ)
deriving DecidableEq

/-- JSON value as returned by the remote aggregate endpoint. -/
inductive JVal where
  | num (q : ℚ)
  | str (s : String)
  | arr (xs : List JVal)
  | obj (fields : List (String × JVal))

/-- Python dict subscript `j[k]`: `none` models a raised `KeyError` (or
`TypeError` when `j` is not a dict). -/
def JVal.getKey : JVal → String → Option JVal
  | .obj fields, k => fields.lookup k
  | _, _ => none

/-- Python list subscript `j[i]`: `none` models a raised `IndexError` (or
`TypeError` when `j` is not a list). -/
def JVal.getIdx : JVal → Nat → Option JVal
  | .arr xs, i => xs.get? i
  | _, _ => none

/-- Python `int(q)` on a number: truncation toward zero. -/
def truncRat (q : ℚ) : Int := q.num.tdiv q.den

/-- Python `+` on the numeric values the reducer accumulates; `int + float`
promotes to `float`.  `none` models the `TypeError` raised when a string is
involved. -/
def pyAdd : PyVal → PyVal → Option PyVal
  | .vInt a, .vInt b => some (.vInt (a + b))
  | .vInt a, .vFloat b => some (.vFloat ((a : ℚ) + b))
  | .vFloat a, .vInt b => some (.vFloat (a + (b : ℚ)))
  | .vFloat a, .vFloat b => some (.vFloat (a + b))
  | _, _ => none

/-- Python 3 true division `v / n` by an integer: always produces a `float`.
`none` models the `TypeError` on a string operand or the `ZeroDivisionError`
when `n = 0`. -/
def pyDivInt (v : PyVal) (n : Int) : Option PyVal :=
  match v with
  | .vStr _ => none
  | .vInt a => if n = 0 then none else some (.vFloat ((a : ℚ) / (n : ℚ)))
  | .vFloat a => if n = 0 then none else some (.vFloat (a / (n : ℚ)))

/-- The enum `GFitDataType`; each variant carries
`(dataTypeName, numeric kind, response field key)`. -/
inductive GFitDataType where
  | WEIGHT
  | STEPS
deriving DecidableEq

/-- Embeds `GFitDataType.value[0]`: the remote service's data type name. -/
def GFitDataType.dataTypeName : GFitDataType → String
  | .WEIGHT => "com.google.weight"
  | .STEPS => "com.google.step_count.delta"

/-- Embeds `GFitDataType.value[2]`: the field key under which a point's value sits. -/
def GFitDataType.fieldKey : GFitDataType → String
  | .WEIGHT => "fpVal"
  | .STEPS => "intVal"

/-- Embeds `GFitDataType.value[1]` applied to a JSON number: `float` for WEIGHT
(exact), `int` for STEPS (truncation toward zero). -/
def GFitDataType.coerce : GFitDataType → ℚ → PyVal
  | .WEIGHT, q => .vFloat q
  | .STEPS, q => .vInt (truncRat q)

/-- Embeds `GoogleFit._extract_points`: `resp['bucket'][0]['dataset'][0]['point']`.
`none` is the structural error raised when the nesting is absent. -/
def _extract_points (resp : JVal) : Option JVal := do
  let b ← resp.getKey "bucket"
  let b0 ← b.getIdx 0
  let d ← b0.getKey "dataset"
  let d0 ← d.getIdx 0
  d0.getKey "point"

/-- The expression `_['value'][0][data_type.value[2]]` read inside the loop of
`_count_total`, before coercion: the raw JSON number of a point's first value
entry.  `none` models the exception raised when the point lacks the shape. -/
def readPointRaw (dt : GFitDataType) (p : JVal) : Option ℚ := do
  let v ← p.getKey "value"
  let v0 ← v.getIdx 0
  let x ← v0.getKey dt.fieldKey
  match x with
  | .num q => some q
  | _ => none

/-- One iteration of the loop in `_count_total`:
`cum = cum + data_type.value[1](_['value'][0][data_type.value[2]])`. -/
def accumPoint (dt : GFitDataType) (cum : PyVal) (p : JVal) : Option PyVal := do
  let q ← readPointRaw dt p
  pyAdd cum (dt.coerce q)

/-- Embeds `GoogleFit._count_total`: extract the point list, return the sentinel
`'no data found'` when it is empty, otherwise fold the coerced point values
from `cum = 0` and divide by the point count exactly when the data type is
WEIGHT. -/
def _count_total (dt : GFitDataType) (resp : JVal) : Option PyVal := do
  let pointsJ ← _extract_points resp
  match pointsJ with
  | .arr points =>
    if points.length = 0 then
      some (.vStr "no data found")
    else do
      let cum ← points.foldlM (accumPoint dt) (PyVal.vInt 0)
      if dt = GFitDataType.WEIGHT then
        pyDivInt cum (points.length : Int)
      else
        some cum
  | _ => none

/-- Naive local `datetime`: a day index and the time of day in seconds
(`hour*3600 + minute*60 + second + microsecond/1e6`). -/
structure PyDatetime where
  day : Int
  tod : ℚ
deriving DecidableEq

/-- Embeds `dt.replace(hour=0, minute=0, second=0, microsecond=0)`: midnight of the
same local day. -/
def PyDatetime.replaceMidnight (d : PyDatetime) : PyDatetime :=
  { day := d.day, tod := 0 }

/-- Embeds `dt + timedelta(days=n)` on a naive datetime: shifts the day, keeps the
time of day. -/
def PyDatetime.addDays (d : PyDatetime) (n : Int) : PyDatetime :=
  { day := d.day + n, tod := d.tod }

/-- Embeds `dt - timedelta(days=n)` on a naive datetime. -/
def PyDatetime.subDays (d : PyDatetime) (n : Int) : PyDatetime :=
  { day := d.day - n, tod := d.tod }

/-- Embeds `dt.timestamp()`: seconds since the epoch of a naive local datetime,
obtained from local wall-clock seconds minus the process's UTC offset `tz`. -/
def PyDatetime.timestamp (tz : ℚ) (d : PyDatetime) : ℚ :=
  86400 * (d.day : ℚ) + d.tod - tz

/-- The local helper `to_epoch` of `_execute_aggregate_request`:
`int(dt.timestamp()) * 1000`. -/
def to_epoch (tz : ℚ) (d : PyDatetime) : Int :=
  truncRat (d.timestamp tz) * 1000

/-- The request body built by `_execute_aggregate_request`:
`{"aggregateBy": [{"dataTypeName": data_type}], "endTimeMillis": str(...),
"startTimeMillis": str(...)}`. -/
structure AggregateBody where
  dataTypeName : String
  endTimeMillis : String
  startTimeMillis : String
deriving DecidableEq

/-- Body construction inside `GoogleFit._execute_aggregate_request`. -/
def aggregateRequestBody (tz : ℚ) (data_type : String)
    (start_date end_date : PyDatetime) : AggregateBody :=
  { dataTypeName := data_type
    endTimeMillis := toString (to_epoch tz end_date)
    startTimeMillis := toString (to_epoch tz start_date) }

/-- Embeds `GoogleFit._execute_aggregate_request`: build the body and submit it
through the authorized service handle `svc`. -/
def _execute_aggregate_request (svc : AggregateBody → JVal) (tz : ℚ)
    (data_type : String) (start_date end_date : PyDatetime) : JVal :=
  svc (aggregateRequestBody tz data_type start_date end_date)

/-- Embeds `GoogleFit._avg_for_response`: execute the aggregate request for the data
type's remote name and reduce the response. -/
def _avg_for_response (svc : AggregateBody → JVal) (tz : ℚ)
    (dt : GFitDataType) (begin_d end_d : PyDatetime) : Option PyVal :=
  _count_total dt (_execute_aggregate_request svc tz dt.dataTypeName begin_d end_d)

/-- Embeds `GoogleFit.average_today`: window `[midnight of now, midnight + 1 day)`. -/
def average_today (svc : AggregateBody → JVal) (tz : ℚ) (now : PyDatetime)
    (dt : GFitDataType) : Option PyVal :=
  let begin_today := now.replaceMidnight
  let end_today := begin_today.addDays 1
  _avg_for_response svc tz dt begin_today end_today

/-- Embeds `GoogleFit.average_for_date`: window `[midnight of d, midnight + 1 day)`. -/
def average_for_date (svc : AggregateBody → JVal) (tz : ℚ)
    (dt : GFitDataType) (d : PyDatetime) : Option PyVal :=
  let begin_d := d.replaceMidnight
  let end_d := begin_d.addDays 1
  _avg_for_response svc tz dt begin_d end_d

/-- The window computed on lines 118-119 of `rolling_daily_average`:
`begin_period = begin_today - timedelta(days=n)` with
`begin_today = now.replace(hour=0, minute=0, second=0, microsecond=0)`. -/
def rolling_window (now : PyDatetime) (n : Int) : PyDatetime × PyDatetime :=
  let begin_today := now.replaceMidnight
  (begin_today.subDays n, begin_today)

/-- Embeds `GoogleFit.rolling_daily_average`: reduce over the window of the `n` days
before today, then divide by `n` exactly when the data type is STEPS. -/
def rolling_daily_average (svc : AggregateBody → JVal) (tz : ℚ)
    (now : PyDatetime) (dt : GFitDataType) (n : Int) : Option PyVal :=
  let w := rolling_window now n
  let avg := _avg_for_response svc tz dt w.1 w.2
  if dt = GFitDataType.STEPS then
    avg.bind (fun v => pyDivInt v n)
  else
    avg

/-- Embeds `GoogleFit.average_for_n_days_ago`: delegate to `average_for_date` at
`now - timedelta(days=n)`. -/
def average_for_n_days_ago (svc : AggregateBody → JVal) (tz : ℚ)
    (now : PyDatetime) (dt : GFitDataType) (n : Int) : Option PyVal :=
  average_for_date svc tz dt (now.subDays n)

/-- A well-formed response carrying the given points:
`{bucket: [{dataset: [{point: pts}]}]}`. -/
def mkResp (pts : List JVal) : JVal :=
  .obj [("bucket", .arr [.obj [("dataset", .arr [.obj [("point", .arr pts)]])]])]

/-- A well-formed point `{value: [{field: num q}]}`. -/
def mkPoint (field : String) (q : ℚ) : JVal :=
  .obj [("value", .arr [.obj [(field, .num q)]])]

/-- The constant service used to witness C4: every aggregate query returns
three step points summing to 6000. -/
def stepsWindowSvc : AggregateBody → JVal := fun _ =>
  mkResp [mkPoint "intVal" 1000, mkPoint "intVal" 2000, mkPoint "intVal" 3000]

/-- The constant service used to witness C10: every aggregate query returns
an empty point list. -/
def emptySvc : AggregateBody → JVal := fun _ => mkResp []

/-! ### Helper lemmas (shared by several claim theorems) -/

/-- Evaluating `pyDivInt` on a float with a nonzero divisor. -/
theorem pyDivInt_vFloat (a : ℚ) (n : Int) (hn : n ≠ 0) :
    pyDivInt (.vFloat a) n = some (.vFloat (a / (n : ℚ))) := by
  simp [pyDivInt, hn]

/-- Evaluating `pyDivInt` on an int with a nonzero divisor. -/
theorem pyDivInt_vInt (a : Int) (n : Int) (hn : n ≠ 0) :
    pyDivInt (.vInt a) n = some (.vFloat ((a : ℚ) / (n : ℚ))) := by
  simp [pyDivInt, hn]

/-- Dividing the sentinel string raises a `TypeError`. -/
theorem pyDivInt_vStr (s : String) (n : Int) : pyDivInt (.vStr s) n = none := rfl

/-- Unfolding `_count_total` once the point list has been extracted. -/
theorem count_total_eq_of_extract (dt : GFitDataType) (resp : JVal)
    (pts : List JVal) (h : _extract_points resp = some (.arr pts)) :
    _count_total dt resp =
      (if pts.length = 0 then some (.vStr "no data found")
       else do
         let cum ← pts.foldlM (accumPoint dt) (PyVal.vInt 0)
         if dt = GFitDataType.WEIGHT then
           pyDivInt cum (pts.length : Int)
         else
           some cum) := by
  simp [_count_total, h]

/-- On an empty extracted point list, `_count_total` returns the sentinel. -/
theorem count_total_empty_eq (dt : GFitDataType) (resp : JVal)
    (h : _extract_points resp = some (.arr [])) :
    _count_total dt resp = some (.vStr "no data found") := by
  rw [count_total_eq_of_extract dt resp [] h]
  simp

/-- A successful `mapM` preserves the list length. -/
theorem mapM_readPointRaw_length (dt : GFitDataType) :
    ∀ (pts : List JVal) (qs : List ℚ),
      pts.mapM (readPointRaw dt) = some qs → pts.length = qs.length := by
  intro pts
  induction pts with
  | nil =>
    intro qs h
    simp only [List.mapM_nil, pure] at h
    cases h
    rfl
  | cons p rest ih =>
    intro qs h
    rw [List.mapM_cons] at h
    cases hp : readPointRaw dt p with
    | none => rw [hp] at h; simp at h
    | some q =>
      rw [hp] at h
      cases hr : rest.mapM (readPointRaw dt) with
      | none => rw [hr] at h; simp at h
      | some qs2 =>
        rw [hr] at h
        simp at h
        subst h
        simp [ih qs2 hr]

/-- Folding the WEIGHT loop body over points whose raw values are `qs`,
starting from an already-float accumulator, adds `qs.sum`. -/
theorem foldlM_accumPoint_weight :
    ∀ (pts : List JVal) (qs : List ℚ) (acc : ℚ),
      pts.mapM (readPointRaw .WEIGHT) = some qs →
      pts.foldlM (accumPoint .WEIGHT) (PyVal.vFloat acc) =
        some (PyVal.vFloat (acc + qs.sum)) := by
  intro pts
  induction pts with
  | nil =>
    intro qs acc h
    simp only [List.mapM_nil, pure] at h
    cases h
    simp
  | cons p rest ih =>
    intro qs acc h
    rw [List.mapM_cons] at h
    cases hp : readPointRaw .WEIGHT p with
    | none => rw [hp] at h; simp at h
    | some q =>
      rw [hp] at h
      cases hr : rest.mapM (readPointRaw .WEIGHT) with
      | none => rw [hr] at h; simp at h
      | some qs2 =>
        rw [hr] at h
        simp at h
        subst h
        have hstep : accumPoint .WEIGHT (PyVal.vFloat acc) p =
            some (PyVal.vFloat (acc + q)) := by
          simp [accumPoint, hp, GFitDataType.coerce, pyAdd]
        rw [List.foldlM_cons, hstep]
        simp [ih qs2 (acc + q) hr, add_assoc]

/-- Folding the STEPS loop body over points whose raw values are `qs`,
starting from an integer accumulator, adds the truncated values. -/
theorem foldlM_accumPoint_steps :
    ∀ (pts : List JVal) (qs : List ℚ) (acc : Int),
      pts.mapM (readPointRaw .STEPS) = some qs →
      pts.foldlM (accumPoint .STEPS) (PyVal.vInt acc) =
        some (PyVal.vInt (acc + (qs.map truncRat).sum)) := by
  intro pts
  induction pts with
  | nil =>
    intro qs acc h
    simp only [List.mapM_nil, pure] at h
    cases h
    simp
  | cons p rest ih =>
    intro qs acc h
    rw [List.mapM_cons] at h
    cases hp : readPointRaw .STEPS p with
    | none => rw [hp] at h; simp at h
    | some q =>
      rw [hp] at h
      cases hr : rest.mapM (readPointRaw .STEPS) with
      | none => rw [hr] at h; simp at h
      | some qs2 =>
        rw [hr] at h
        simp at h
        subst h
        have hstep : accumPoint .STEPS (PyVal.vInt acc) p =
            some (PyVal.vInt (acc + truncRat q)) := by
          simp [accumPoint, hp, GFitDataType.coerce, pyAdd]
        rw [List.foldlM_cons, hstep]
        simp [ih qs2 (acc + truncRat q) hr, add_assoc]

example : _extract_points (mkResp []) = some (JVal.arr []) := rfl
example : _count_total GFitDataType.WEIGHT (mkResp []) =
    some (PyVal.vStr "no data found") := by decide
example : _count_total GFitDataType.WEIGHT
    (mkResp [mkPoint "fpVal" 70, mkPoint "fpVal" 72]) =
    some (PyVal.vFloat 71) := by
  simp [_count_total, _extract_points, mkResp, mkPoint, JVal.getKey, JVal.getIdx,
    accumPoint, readPointRaw, GFitDataType.coerce, GFitDataType.fieldKey, pyAdd,
    pyDivInt, List.lookup]
  norm_num
example : _count_total GFitDataType.STEPS
    (mkResp [mkPoint "intVal" 1000, mkPoint "intVal" 2000, mkPoint "intVal" 3000]) =
    some (PyVal.vInt 6000) := by decide

/-! ### Claim theorems -/

/-- C1: for every data type and every response whose extracted point list at
`bucket[0].dataset[0].point` is empty, `_count_total` returns the sentinel
string `'no data found'` — never a numeric value and never a fault. -/
theorem count_total_empty_points_sentinel (dt : GFitDataType) (resp : JVal)
    (h : _extract_points resp = some (JVal.arr [])) :
    _count_total dt resp = some (PyVal.vStr "no data found") :=
  count_total_empty_eq dt resp h

theorem count_total_empty_points_sentinel_witness :
    _extract_points (mkResp []) = some (JVal.arr [])
    ∧ _count_total GFitDataType.WEIGHT (mkResp []) =
        some (PyVal.vStr "no data found") :=
  ⟨rfl, count_total_empty_points_sentinel GFitDataType.WEIGHT (mkResp []) rfl⟩

/-- C2: for WEIGHT and every response with a non-empty point list whose raw
first value entries read as `qs`, `_count_total` returns the arithmetic mean:
the sum of the float-coerced values divided by the number of points. -/
theorem count_total_weight_mean (resp : JVal) (pts : List JVal) (qs : List ℚ)
    (h1 : _extract_points resp = some (JVal.arr pts)) (h2 : pts ≠ [])
    (h3 : pts.mapM (readPointRaw GFitDataType.WEIGHT) = some qs) :
    _count_total GFitDataType.WEIGHT resp =
      some (PyVal.vFloat (qs.sum / (pts.length : ℚ))) := by
  obtain ⟨p, rest, rfl⟩ := List.exists_cons_of_ne_nil h2
  rw [count_total_eq_of_extract _ _ _ h1]
  rw [List.mapM_cons] at h3
  cases hp : readPointRaw GFitDataType.WEIGHT p with
  | none => rw [hp] at h3; simp at h3
  | some q =>
    rw [hp] at h3
    cases hr : rest.mapM (readPointRaw GFitDataType.WEIGHT) with
    | none => rw [hr] at h3; simp at h3
    | some qs2 =>
      rw [hr] at h3
      simp at h3
      subst h3
      have hstep : accumPoint GFitDataType.WEIGHT (PyVal.vInt 0) p =
          some (PyVal.vFloat (((0 : Int) : ℚ) + q)) := by
        simp [accumPoint, hp, GFitDataType.coerce, pyAdd]
      have hne : ((rest.length : Int) + 1) ≠ 0 := by omega
      have hfold := foldlM_accumPoint_weight rest qs2 q hr
      simp [List.foldlM_cons, hstep, hfold, add_assoc,
        pyDivInt_vFloat (q + qs2.sum) ((rest.length : Int) + 1) hne]

theorem count_total_weight_mean_witness :
    _extract_points (mkResp [mkPoint "fpVal" 70, mkPoint "fpVal" 72]) =
        some (JVal.arr [mkPoint "fpVal" 70, mkPoint "fpVal" 72])
    ∧ [mkPoint "fpVal" 70, mkPoint "fpVal" 72] ≠ []
    ∧ [mkPoint "fpVal" 70, mkPoint "fpVal" 72].mapM
        (readPointRaw GFitDataType.WEIGHT) = some [(70 : ℚ), 72]
    ∧ _count_total GFitDataType.WEIGHT
        (mkResp [mkPoint "fpVal" 70, mkPoint "fpVal" 72]) =
      some (PyVal.vFloat (([(70 : ℚ), 72]).sum /
        (([mkPoint "fpVal" 70, mkPoint "fpVal" 72].length : Nat) : ℚ))) :=
  ⟨rfl, by simp [mkPoint], rfl,
    count_total_weight_mean _ _ _ rfl (by simp [mkPoint]) rfl⟩

/-- C3: for STEPS and every response with a non-empty point list whose raw
first value entries read as `qs`, `_count_total` returns the raw sum (not an
average) of the integer-truncated values. -/
theorem count_total_steps_sum (resp : JVal) (pts : List JVal) (qs : List ℚ)
    (h1 : _extract_points resp = some (JVal.arr pts)) (h2 : pts ≠ [])
    (h3 : pts.mapM (readPointRaw GFitDataType.STEPS) = some qs) :
    _count_total GFitDataType.STEPS resp =
      some (PyVal.vInt ((qs.map truncRat).sum)) := by
  obtain ⟨p, rest, rfl⟩ := List.exists_cons_of_ne_nil h2
  rw [count_total_eq_of_extract _ _ _ h1]
  rw [List.mapM_cons] at h3
  cases hp : readPointRaw GFitDataType.STEPS p with
  | none => rw [hp] at h3; simp at h3
  | some q =>
    rw [hp] at h3
    cases hr : rest.mapM (readPointRaw GFitDataType.STEPS) with
    | none => rw [hr] at h3; simp at h3
    | some qs2 =>
      rw [hr] at h3
      simp at h3
      subst h3
      have hstep : accumPoint GFitDataType.STEPS (PyVal.vInt 0) p =
          some (PyVal.vInt (0 + truncRat q)) := by
        simp [accumPoint, hp, GFitDataType.coerce, pyAdd]
      have hfold := foldlM_accumPoint_steps rest qs2 (truncRat q) hr
      simp [List.foldlM_cons, hstep, hfold, add_assoc]

theorem count_total_steps_sum_witness :
    _extract_points (mkResp [mkPoint "intVal" 1000, mkPoint "intVal" 2000,
        mkPoint "intVal" 3000]) = some (JVal.arr [mkPoint "intVal" 1000,
        mkPoint "intVal" 2000, mkPoint "intVal" 3000])
    ∧ [mkPoint "intVal" 1000, mkPoint "intVal" 2000, mkPoint "intVal" 3000] ≠ []
    ∧ [mkPoint "intVal" 1000, mkPoint "intVal" 2000, mkPoint "intVal" 3000].mapM
        (readPointRaw GFitDataType.STEPS) = some [(1000 : ℚ), 2000, 3000]
    ∧ _count_total GFitDataType.STEPS (mkResp [mkPoint "intVal" 1000,
        mkPoint "intVal" 2000, mkPoint "intVal" 3000]) =
      some (PyVal.vInt (([(1000 : ℚ), 2000, 3000].map truncRat).sum)) :=
  ⟨rfl, by simp [mkPoint], rfl,
    count_total_steps_sum _ _ _ rfl (by simp [mkPoint]) rfl⟩

/-- C4: `rolling_daily_average` post-processes the window result
asymmetrically: for STEPS the window sum `s` is divided by `n` to give a
per-day average, while for WEIGHT the window-level result is returned
unchanged with no further division by `n`. -/
theorem rolling_daily_average_postprocessing (svc : AggregateBody → JVal)
    (tz : ℚ) (now : PyDatetime) (n : Int) (s : Int) (hn : n ≠ 0)
    (hs : _avg_for_response svc tz GFitDataType.STEPS
        (rolling_window now n).1 (rolling_window now n).2 =
        some (PyVal.vInt s)) :
    rolling_daily_average svc tz now GFitDataType.STEPS n =
        some (PyVal.vFloat ((s : ℚ) / (n : ℚ)))
    ∧ ∀ svc2 : AggregateBody → JVal,
        rolling_daily_average svc2 tz now GFitDataType.WEIGHT n =
          _avg_for_response svc2 tz GFitDataType.WEIGHT
            (rolling_window now n).1 (rolling_window now n).2 := by
  constructor
  · simp [rolling_daily_average, hs, pyDivInt_vInt s n hn]
  · intro svc2
    simp [rolling_daily_average]

theorem rolling_daily_average_postprocessing_witness :
    (3 : Int) ≠ 0
    ∧ _avg_for_response stepsWindowSvc 0 GFitDataType.STEPS
        (rolling_window ⟨0, 0⟩ 3).1 (rolling_window ⟨0, 0⟩ 3).2 =
        some (PyVal.vInt 6000)
    ∧ (rolling_daily_average stepsWindowSvc 0 ⟨0, 0⟩ GFitDataType.STEPS 3 =
          some (PyVal.vFloat ((6000 : ℚ) / (3 : ℚ)))
       ∧ ∀ svc2 : AggregateBody → JVal,
          rolling_daily_average svc2 0 ⟨0, 0⟩ GFitDataType.WEIGHT 3 =
            _avg_for_response svc2 0 GFitDataType.WEIGHT
              (rolling_window ⟨0, 0⟩ 3).1 (rolling_window ⟨0, 0⟩ 3).2) :=
  ⟨by decide, by decide,
    rolling_daily_average_postprocessing stepsWindowSvc 0 ⟨0, 0⟩ 3 6000
      (by decide) (by decide)⟩

/-- C5: for every `n`, the query window of `rolling_daily_average` is
`[midnight of the current local day minus n days, midnight of the current
local day)`: its end equals today's midnight regardless of the current
time-of-day, so the current day is entirely excluded. -/
theorem rolling_daily_average_window_spec (now : PyDatetime) (n : Int) :
    rolling_window now n = (⟨now.day - n, 0⟩, ⟨now.day, 0⟩)
    ∧ ∀ (svc : AggregateBody → JVal) (tz : ℚ) (dt : GFitDataType),
        rolling_daily_average svc tz now dt n =
          (let avg := _avg_for_response svc tz dt
              (⟨now.day - n, 0⟩ : PyDatetime) (⟨now.day, 0⟩ : PyDatetime)
           if dt = GFitDataType.STEPS then avg.bind (fun v => pyDivInt v n)
           else avg) := by
  constructor
  · simp [rolling_window, PyDatetime.replaceMidnight, PyDatetime.subDays]
  · intro svc tz dt
    simp [rolling_daily_average, rolling_window, PyDatetime.replaceMidnight,
      PyDatetime.subDays]

/-- C6: for any data type, `average_for_date` called with the current moment
as the date produces exactly the same request and result as `average_today`:
both derive start = local midnight of the current day (the supplied
time-of-day normalized away) and end = start + 24 hours. -/
theorem average_for_date_now_matches_average_today (svc : AggregateBody → JVal)
    (tz : ℚ) (dt : GFitDataType) (now : PyDatetime) :
    average_for_date svc tz dt now = average_today svc tz now dt
    ∧ now.replaceMidnight = ⟨now.day, 0⟩
    ∧ ∀ tz2 : ℚ, (now.replaceMidnight.addDays 1).timestamp tz2 =
        now.replaceMidnight.timestamp tz2 + 86400 := by
  refine ⟨rfl, rfl, ?_⟩
  intro tz2
  simp [PyDatetime.timestamp, PyDatetime.addDays, PyDatetime.replaceMidnight]
  ring

/-- C7: for every data type, `average_for_n_days_ago` with `n = 0` returns
the same result as `average_today`, querying the same
`[today's midnight, today's midnight + 1 day)` window. -/
theorem average_for_n_days_ago_zero_eq_today (svc : AggregateBody → JVal)
    (tz : ℚ) (now : PyDatetime) (dt : GFitDataType) :
    average_for_n_days_ago svc tz now dt 0 = average_today svc tz now dt := by
  simp [average_for_n_days_ago, average_for_date, average_today,
    PyDatetime.subDays, PyDatetime.replaceMidnight]

/-- C8: for every pair of boundary datetimes, the request builder converts
each boundary to milliseconds since epoch by truncating the timestamp to
whole seconds and then multiplying by 1000, and places both values in the
request body as decimal-encoded strings under `startTimeMillis` and
`endTimeMillis`. -/
theorem aggregate_request_millis_encoding (tz : ℚ) (data_type : String)
    (start_date end_date : PyDatetime) :
    aggregateRequestBody tz data_type start_date end_date =
      AggregateBody.mk data_type (toString (to_epoch tz end_date))
        (toString (to_epoch tz start_date))
    ∧ to_epoch tz start_date = truncRat (start_date.timestamp tz) * 1000
    ∧ to_epoch tz end_date = truncRat (end_date.timestamp tz) * 1000
    ∧ toString (to_epoch tz start_date) =
        toString (truncRat (start_date.timestamp tz) * 1000)
    ∧ toString (to_epoch tz end_date) =
        toString (truncRat (end_date.timestamp tz) * 1000) :=
  ⟨rfl, rfl, rfl, congrArg toString rfl, congrArg toString rfl⟩

/-- C9: for every data type and every response dictionary lacking the
expected nesting (here: missing the `'bucket'` key), the reducer raises an
uncaught structural error — it never silently returns a default or the
sentinel. -/
theorem count_total_missing_bucket_raises (dt : GFitDataType) (resp : JVal)
    (h : resp.getKey "bucket" = none) :
    _count_total dt resp = none := by
  have hext : _extract_points resp = none := by
    simp [_extract_points, h]
  simp [_count_total, hext]

theorem count_total_missing_bucket_raises_witness :
    (JVal.obj []).getKey "bucket" = none
    ∧ _count_total GFitDataType.STEPS (JVal.obj []) = none :=
  ⟨rfl, count_total_missing_bucket_raises GFitDataType.STEPS (JVal.obj []) rfl⟩

/-- C10: when the queried window contains no data points,
`rolling_daily_average` for STEPS does not return the `'no data found'`
sentinel but faults (the sentinel string produced by `_count_total` is
divided by `n`, a type error), while for WEIGHT the sentinel string is
passed through to the caller unchanged. -/
theorem rolling_daily_average_empty_window (svc : AggregateBody → JVal)
    (tz : ℚ) (now : PyDatetime) (n : Int)
    (h : ∀ b, _extract_points (svc b) = some (JVal.arr [])) :
    rolling_daily_average svc tz now GFitDataType.STEPS n = none
    ∧ rolling_daily_average svc tz now GFitDataType.WEIGHT n =
        some (PyVal.vStr "no data found") := by
  have hsent : ∀ (dt : GFitDataType) (b1 b2 : PyDatetime),
      _avg_for_response svc tz dt b1 b2 = some (PyVal.vStr "no data found") := by
    intro dt b1 b2
    unfold _avg_for_response _execute_aggregate_request
    exact count_total_empty_eq dt _ (h _)
  constructor
  · simp [rolling_daily_average, hsent, pyDivInt]
  · simp [rolling_daily_average, hsent]

theorem rolling_daily_average_empty_window_witness :
    (∀ b, _extract_points (emptySvc b) = some (JVal.arr []))
    ∧ (rolling_daily_average emptySvc 0 (⟨0, 0⟩ : PyDatetime)
          GFitDataType.STEPS 7 = none
       ∧ rolling_daily_average emptySvc 0 (⟨0, 0⟩ : PyDatetime)
          GFitDataType.WEIGHT 7 = some (PyVal.vStr "no data found")) :=
  ⟨fun _ => rfl,
    rolling_daily_average_empty_window emptySvc 0 ⟨0, 0⟩ 7 (fun _ => rfl)⟩
